import Mathlib

/-!
Verification of the browser-side input bridge (src/www/index.js).

The module keeps a four-boolean directional input record, mutates it from
keydown/keyup events, and drives an animation-frame render loop that calls
the external game's `draw` operation each frame, sets a status text from a
null-check on the result, and re-schedules itself.

The embedding below is shallow: the key handlers become pure functions on
the input record; the top-level script and the per-frame loop body become
effect traces; JavaScript loose equality with `null` is modelled on a value
type distinguishing `null`, `undefined` and ordinary objects.
-/

namespace Airlock

/-- The directional input record `curInput` (src/www/index.js lines 3-8):
four named booleans. -/
structure InputState where
  up : Bool
  down : Bool
  left : Bool
  right : Bool
deriving DecidableEq, Repr

/-- The initial value of `curInput`: all four flags false (lines 4-7). -/
def curInputInit : InputState :=
  { up := false, down := false, left := false, right := false }

/-- The key name of the up arrow, as compared by the handlers. -/
def arrowUpKey : String := "ArrowUp"

/-- The key name of the down arrow. -/
def arrowDownKey : String := "ArrowDown"

/-- The key name of the left arrow. -/
def arrowLeftKey : String := "ArrowLeft"

/-- The key name of the right arrow. -/
def arrowRightKey : String := "ArrowRight"

/-- The keydown listener (lines 10-25): a switch on `ev.key` that sets the
matching flag to true; any other key falls through the switch unchanged. -/
def keydownHandler (key : String) (s : InputState) : InputState :=
  if key = "ArrowUp" then { s with up := true }
  else if key = "ArrowDown" then { s with down := true }
  else if key = "ArrowLeft" then { s with left := true }
  else if key = "ArrowRight" then { s with right := true }
  else s

/-- The keyup listener (lines 26-41): the same switch, setting the matching
flag to false. -/
def keyupHandler (key : String) (s : InputState) : InputState :=
  if key = "ArrowUp" then { s with up := false }
  else if key = "ArrowDown" then { s with down := false }
  else if key = "ArrowLeft" then { s with left := false }
  else if key = "ArrowRight" then { s with right := false }
  else s

/-- A JavaScript value as far as the null-check on line 54 can tell:
`null`, `undefined`, or any other (non-nullish) value, carrying an opaque
tag. -/
inductive JSValue where
  | null : JSValue
  | undefined : JSValue
  | obj : Nat → JSValue
deriving DecidableEq, Repr

/-- JavaScript loose equality `result == null` (line 54): true exactly for
`null` and `undefined`. -/
def looseEqNull : JSValue → Bool
  | JSValue.null => true
  | JSValue.undefined => true
  | JSValue.obj _ => false

/-- The status text written each frame (lines 54-58): the failure string
when the draw result is nullish, the success string otherwise. -/
def statusFor (result : JSValue) : String :=
  if looseEqNull result then "Failed to draw!" else "All is well."

/-- The id of the game handle returned by the single `make_game()` call on
line 50. -/
def gameHandleId : Nat := 0

/-- An observable effect of the script: event-listener registration, DOM
construction, game construction, a draw call on a handle with its four
boolean arguments in source order, a status-text write, or an
animation-frame scheduling request. -/
inductive Effect where
  | addKeydownListener : Effect
  | addKeyupListener : Effect
  | createDiv : Effect
  | appendDiv : Effect
  | createCanvas : Effect
  | appendCanvas : Effect
  | makeGame : Nat → Effect
  | drawCall : Nat → Bool × Bool × Bool × Bool → Effect
  | setInnerText : String → Effect
  | requestAnimationFrame : Effect
deriving DecidableEq, Repr

/-- One invocation of `drawOneFrame` (lines 51-60), as the list of effects
it performs in order: exactly one draw call on the game handle passing
`curInput.up, curInput.down, curInput.left, curInput.right`, one
status-text write determined by the null-check on the result, and exactly
one re-scheduling via `requestAnimationFrame`. -/
def drawOneFrame (draw : Bool → Bool → Bool → Bool → JSValue)
    (input : InputState) : List Effect :=
  [Effect.drawCall gameHandleId (input.up, input.down, input.left, input.right),
   Effect.setInnerText (statusFor (draw input.up input.down input.left input.right)),
   Effect.requestAnimationFrame]

/-- The top-level script (lines 10-61) as its effect trace: register the two
key listeners, build and append the status div and the canvas, call
`make_game()` once, and request the first animation frame. -/
def startupTrace : List Effect :=
  [Effect.addKeydownListener,
   Effect.addKeyupListener,
   Effect.createDiv,
   Effect.appendDiv,
   Effect.createCanvas,
   Effect.appendCanvas,
   Effect.makeGame gameHandleId,
   Effect.requestAnimationFrame]

/-- The cumulative effect trace of the program after `n` frame invocations:
the startup trace followed by one `drawOneFrame` trace per frame, with
`inputs k` the input state the handlers have produced by the time frame `k`
runs. -/
def runTrace (draw : Bool → Bool → Bool → Bool → JSValue)
    (inputs : Nat → InputState) : Nat → List Effect
  | 0 => startupTrace
  | n + 1 => runTrace draw inputs n ++ drawOneFrame draw (inputs n)

/-- Whether an effect is a `make_game()` call. -/
def isMakeGame : Effect → Bool
  | Effect.makeGame _ => true
  | _ => false

/-- Whether an effect is a `requestAnimationFrame` call. -/
def isRAF : Effect → Bool
  | Effect.requestAnimationFrame => true
  | _ => false

/-- The argument tuple of a draw-call effect, if it is one. -/
def drawArgsOf : Effect → Option (Bool × Bool × Bool × Bool)
  | Effect.drawCall _ a => some a
  | _ => none

/-- The text of a status-write effect, if it is one. -/
def statusSetOf : Effect → Option String
  | Effect.setInnerText t => some t
  | _ => none

/-- The number of animation-frame callbacks pending after `n` frames have
run: the startup script schedules the first (line 61), and each frame
consumes its own callback and schedules whatever its trace requests
(line 59). -/
def pendingFrames (draw : Bool → Bool → Bool → Bool → JSValue)
    (inputs : Nat → InputState) : Nat → Nat
  | 0 => List.countP isRAF startupTrace
  | n + 1 =>
      pendingFrames draw inputs n - 1 +
        List.countP isRAF (drawOneFrame draw (inputs n))

/-- Modelled from the spec: the external `GameHandle.draw` operation is
declared (spec section 6) to return `Result | null`, where `Result` is
opaque; `none` stands for `null`, `some r` for a `Result`. The wasm
implementation of `draw` is not part of this source tree. -/
def specDraw (draw : Bool → Bool → Bool → Bool → Option Nat) :
    Bool → Bool → Bool → Bool → JSValue :=
  fun u d l r =>
    match draw u d l r with
    | none => JSValue.null
    | some v => JSValue.obj v

/-- C7: at program start, before any key event is handled, all four fields
of the input record (`up`, `down`, `left`, `right`) are false. -/
theorem initialInputAllFalse :
    curInputInit.up = false ∧ curInputInit.down = false ∧
    curInputInit.left = false ∧ curInputInit.right = false := by
  decide

/-- C2: for each of the four arrow keys and every starting input state, the
keydown handler sets the corresponding field to true and leaves the other
three fields unchanged. -/
theorem keydownSetsMatchingField (s : InputState) :
    keydownHandler arrowUpKey s = { s with up := true } ∧
    keydownHandler arrowDownKey s = { s with down := true } ∧
    keydownHandler arrowLeftKey s = { s with left := true } ∧
    keydownHandler arrowRightKey s = { s with right := true } := by
  refine ⟨?_, ?_, ?_, ?_⟩ <;>
    simp [keydownHandler, arrowUpKey, arrowDownKey, arrowLeftKey, arrowRightKey]

/-- C3: for each of the four arrow keys and every starting input state (in
particular one where the field is true), the keyup handler sets the
corresponding field to false and leaves the other three fields unchanged. -/
theorem keyupClearsMatchingField (s : InputState) :
    keyupHandler arrowUpKey s = { s with up := false } ∧
    keyupHandler arrowDownKey s = { s with down := false } ∧
    keyupHandler arrowLeftKey s = { s with left := false } ∧
    keyupHandler arrowRightKey s = { s with right := false } := by
  refine ⟨?_, ?_, ?_, ?_⟩ <;>
    simp [keyupHandler, arrowUpKey, arrowDownKey, arrowLeftKey, arrowRightKey]

/-- C4: for every key that is none of the four arrow keys and every starting
input state, both the keydown and the keyup handler leave the state
unchanged (the switch falls through: a total no-op, no error). -/
theorem unrecognizedKeyIgnored (key : String)
    (h1 : key ≠ arrowUpKey) (h2 : key ≠ arrowDownKey)
    (h3 : key ≠ arrowLeftKey) (h4 : key ≠ arrowRightKey) (s : InputState) :
    keydownHandler key s = s ∧ keyupHandler key s = s := by
  rw [arrowUpKey] at h1
  rw [arrowDownKey] at h2
  rw [arrowLeftKey] at h3
  rw [arrowRightKey] at h4
  constructor <;> simp [keydownHandler, keyupHandler, h1, h2, h3, h4]

/-- A sample non-arrow key for concrete evaluation. -/
def sampleKey : String := "a"

/-- Witness for C4 at the concrete key "a" and the initial state. -/
theorem unrecognizedKeyIgnored_witness :
    keydownHandler sampleKey curInputInit = curInputInit ∧
    keyupHandler sampleKey curInputInit = curInputInit :=
  unrecognizedKeyIgnored sampleKey (by decide) (by decide) (by decide)
    (by decide) curInputInit

/-- C10: both key handlers are idempotent: for every key and every input
state, handling the same key event twice in a row yields the same state as
handling it once. -/
theorem handlersIdempotent (key : String) (s : InputState) :
    keydownHandler key (keydownHandler key s) = keydownHandler key s ∧
    keyupHandler key (keyupHandler key s) = keyupHandler key s := by
  constructor
  · simp only [keydownHandler]
    split_ifs <;> rfl
  · simp only [keyupHandler]
    split_ifs <;> rfl

/-- C1: in one frame invocation, with the external `draw` returning
`Result | null` as its interface declares, the status text is set to
exactly "All is well." when the result is non-null, and to exactly
"Failed to draw!" when the result is null. -/
theorem statusReflectsDrawResult (draw : Bool → Bool → Bool → Bool → Option Nat)
    (input : InputState) :
    ((∃ v, draw input.up input.down input.left input.right = some v) →
      List.filterMap statusSetOf (drawOneFrame (specDraw draw) input) =
        ["All is well."]) ∧
    (draw input.up input.down input.left input.right = none →
      List.filterMap statusSetOf (drawOneFrame (specDraw draw) input) =
        ["Failed to draw!"]) := by
  constructor
  · rintro ⟨v, hv⟩
    simp [drawOneFrame, specDraw, hv, statusFor, looseEqNull, statusSetOf]
  · intro hn
    simp [drawOneFrame, specDraw, hn, statusFor, looseEqNull, statusSetOf]

/-- Witness for C1: a draw returning `some 0` yields the success text at the
initial input state. -/
theorem statusReflectsDrawResult_witness :
    List.filterMap statusSetOf
        (drawOneFrame (specDraw (fun _ _ _ _ => some 0)) curInputInit) =
      ["All is well."] :=
  (statusReflectsDrawResult (fun _ _ _ _ => some 0) curInputInit).1 ⟨0, rfl⟩

/-- C9: if `draw` returns `undefined`, the frame also takes the failure
branch and sets the status text to exactly "Failed to draw!"; in general the
null-check `result == null` classifies exactly the nullish values (`null`
and `undefined`) as failures, not the `null` value alone. -/
theorem undefinedResultIsFailure (draw : Bool → Bool → Bool → Bool → JSValue)
    (input : InputState)
    (h : draw input.up input.down input.left input.right = JSValue.undefined) :
    List.filterMap statusSetOf (drawOneFrame draw input) =
        ["Failed to draw!"] ∧
    ∀ v : JSValue, statusFor v = "Failed to draw!" ↔
      (v = JSValue.null ∨ v = JSValue.undefined) := by
  constructor
  · simp [drawOneFrame, h, statusFor, looseEqNull, statusSetOf]
  · intro v
    cases v <;> simp [statusFor, looseEqNull]

/-- Witness for C9: a draw constantly returning `undefined` at the initial
input state. -/
theorem undefinedResultIsFailure_witness :
    List.filterMap statusSetOf
        (drawOneFrame (fun _ _ _ _ => JSValue.undefined) curInputInit) =
      ["Failed to draw!"] :=
  (undefinedResultIsFailure (fun _ _ _ _ => JSValue.undefined) curInputInit
    rfl).1

/-- C6: every frame invocation performs exactly one draw call, whose
arguments are the current input-state fields in the order
`up, down, left, right`. -/
theorem drawCalledOncePerFrame (draw : Bool → Bool → Bool → Bool → JSValue)
    (input : InputState) :
    List.filterMap drawArgsOf (drawOneFrame draw input) =
      [(input.up, input.down, input.left, input.right)] := by
  simp [drawOneFrame, drawArgsOf]

/-- C5: every frame invocation requests exactly one further animation frame,
whatever the draw result; consequently, starting from the single request the
startup script makes, exactly one callback is pending after every number of
frames, so the sequence of invocations never ends on its own. -/
theorem loopReschedulesForever (draw : Bool → Bool → Bool → Bool → JSValue)
    (inputs : Nat → InputState) :
    (∀ input, List.countP isRAF (drawOneFrame draw input) = 1) ∧
    ∀ n, pendingFrames draw inputs n = 1 := by
  constructor
  · intro input
    simp [drawOneFrame, isRAF, List.countP, List.countP.go]
  · intro n
    induction n with
    | zero => simp [pendingFrames, startupTrace, isRAF, List.countP, List.countP.go]
    | succ n ih =>
        simp [pendingFrames, ih, drawOneFrame, isRAF, List.countP, List.countP.go]

/-- C8: after every number of frames, the cumulative trace contains exactly
one `make_game()` call (the one in the startup script), and every draw call
in the trace is made on the handle that call returned. -/
theorem singleGameHandle (draw : Bool → Bool → Bool → Bool → JSValue)
    (inputs : Nat → InputState) (n : Nat) :
    List.countP isMakeGame (runTrace draw inputs n) = 1 ∧
    (∀ g, Effect.makeGame g ∈ runTrace draw inputs n → g = gameHandleId) ∧
    (∀ g a, Effect.drawCall g a ∈ runTrace draw inputs n → g = gameHandleId) := by
  induction n with
  | zero =>
      refine ⟨?_, ?_, ?_⟩
      · simp [runTrace, startupTrace, isMakeGame, List.countP, List.countP.go]
      · intro g hg
        simpa [runTrace, startupTrace] using hg
      · intro g a hg
        simp [runTrace, startupTrace] at hg
  | succ n ih =>
      obtain ⟨ihc, ihm, ihd⟩ := ih
      refine ⟨?_, ?_, ?_⟩
      · simp only [runTrace, List.countP_append, ihc]
        simp [drawOneFrame, isMakeGame, List.countP, List.countP.go]
      · intro g hg
        simp only [runTrace, List.mem_append] at hg
        rcases hg with h | h
        · exact ihm g h
        · simp [drawOneFrame] at h
      · intro g a hg
        simp only [runTrace, List.mem_append] at hg
        rcases hg with h | h
        · exact ihd g a h
        · simp [drawOneFrame] at h
          exact h.1

end Airlock
